import Mathlib

/-!
Shallow embedding of the sale-transaction processing core of `app.py`
(jrf_motoshop): the `process_sale` route (`POST /api/sales`), its helpers
`create_notification`, `create_notification_for_role`, `log_audit`,
`generate_receipt_number`, and the SQLAlchemy data model rows it touches.

Conventions of the embedding:
* Database state is a `DB` record of row lists; a SQLAlchemy session commit
  either applies the staged writes atomically or leaves the state unchanged.
* Currency values (`Float` columns) are modelled as `ℚ`; integer columns as
  `Int`/`Nat`.  Timestamp columns (`sale_date`, `created_at`, `updated_at`,
  `is_read`, `read_at`, `ip_address`, `user_agent`) carry no information any
  claim depends on and are omitted from the row records.
* Failure injection: `Env.commitFails` models a storage failure of the main
  commit; `Env.failSteps` lists the post-commit steps whose body raises when
  executed (modelling an exception inside that notification/audit call).
* The commit itself fails exactly when MySQL would reject the staged writes:
  a duplicate `(sale_id, part_id)` composite primary key among the staged
  `SaleDetail` rows, a dangling foreign key (`part_id`, `staff_id`,
  `customer_id`), a duplicate unique `receipt_number`, or the injected
  storage failure.
-/

namespace JrfMotoshop

/-- Row of the `parts` table (class `Part` in app.py); columns not read by
`process_sale` (`description`, `part_type`, `brand`, `updated_at`) omitted. -/
structure Part where
  id : Nat
  name : String
  price : ℚ
  stock_quantity : Int
deriving Repr, DecidableEq

/-- Row of the `staff` table (class `User` in app.py). -/
structure User where
  id : Nat
  name : String
  role : String
deriving Repr, DecidableEq

/-- Row of the `settings` table (class `Settings` in app.py). -/
structure Settings where
  category : String
  setting_key : String
  setting_value : String
deriving Repr, DecidableEq

/-- Row of the `sales` table (class `Sale` in app.py). -/
structure Sale where
  id : Nat
  total_amount : ℚ
  payment_method : String
  staff_id : Nat
  customer_id : Option Nat
  receipt_number : String
  notes : String
deriving Repr, DecidableEq

/-- Row of the `sale_details` table (class `SaleDetail` in app.py);
composite primary key `(sale_id, part_id)`. -/
structure SaleDetail where
  sale_id : Nat
  part_id : Nat
  quantity : Int
  price_at_sale : ℚ
deriving Repr, DecidableEq

/-- Row of the `notifications` table (class `Notification` in app.py);
`is_read`/`read_at`/`created_at` omitted (always fresh defaults here). -/
structure Notification where
  user_id : Nat
  title : String
  message : String
  type : String
  category : String
  action_url : Option String
  action_text : Option String
deriving Repr, DecidableEq

/-- One entry of `data['items']` in the request payload of `process_sale`. -/
structure CartItem where
  id : Nat
  quantity : Int
  price : ℚ
deriving Repr, DecidableEq

/-- The structured payload `log_audit` receives as `new_values` for a sale
(the `json.dumps` serialisation step is elided, the payload kept
structured). -/
structure AuditPayload where
  total_amount : ℚ
  payment_method : String
  customer_id : Option Nat
  items : List CartItem
deriving Repr, DecidableEq

/-- Row of the `audit_logs` table (class `AuditLog` in app.py);
`action_date`/`ip_address`/`user_agent` omitted. -/
structure AuditLog where
  user_id : Option Nat
  action_type : String
  table_name : String
  record_id : Option Nat
  new_values : Option AuditPayload
deriving Repr, DecidableEq

/-- The persistent database state visible to `process_sale`.  `customers`
holds the primary keys of the `customers` table (only referenced through the
`customer_id` foreign key).  `next_sale_id` models the autoincrement counter
of `sales.id`. -/
structure DB where
  parts : List Part
  users : List User
  customers : List Nat
  sales : List Sale
  sale_details : List SaleDetail
  notifications : List Notification
  audit_logs : List AuditLog
  settings : List Settings
  next_sale_id : Nat
deriving Repr, DecidableEq

/-- The JSON body of `POST /api/sales` after the route's type coercions
(`float(data['total'])` etc.). -/
structure SaleRequest where
  total : ℚ
  paymentMethod : String
  items : List CartItem
  customer_id : Option Nat
  notes : String
deriving Repr, DecidableEq

/-- The post-commit steps of `process_sale` that can raise: the
critical-stock fan-out, the completion notification, the high-value
fan-out, the milestone block, and the audit record. -/
inductive FailStep
  | criticalStock
  | completion
  | highValueFanout
  | milestone
  | audit
deriving Repr, DecidableEq

/-- Failure injection and the receipt value produced by
`generate_receipt_number` for this invocation. -/
structure Env where
  commitFails : Bool
  failSteps : List FailStep
  receipt : String
deriving Repr, DecidableEq

/-- Observable HTTP response of the route: `jsonify` payload fields plus
the status code (200 on success, 500 from the `except` handler). -/
structure Response where
  success : Bool
  status : Nat
  sale_id : Option Nat
  receipt_number : Option String
deriving Repr, DecidableEq

/-- The `{'success': False, 'message': ...}, 500` response of the outer
`except` handler. -/
def err500 : Response :=
  { success := false, status := 500, sale_id := none, receipt_number := none }

/-- `Settings.query.filter_by(category=cat, setting_key=key).first()`. -/
def findSetting (settings : List Settings) (cat key : String) : Option Settings :=
  settings.find? (fun s => s.category == cat && s.setting_key == key)

/-- Reads a nonempty all-digit character sequence as a natural number;
`none` on any other input. -/
def digitsToNat? : List Char → Option Nat
  | [] => none
  | cs => go cs 0
where
  go : List Char → Nat → Option Nat
    | [], acc => some acc
    | c :: cs, acc =>
      if c.isDigit then go cs (acc * 10 + (c.toNat - 48)) else none

/-- Python `int(s)` on a string, as `Int`; `none` models the `ValueError`
raised on a malformed string.  (Surrounding whitespace and a leading `+`,
which CPython also accepts, are not modelled; no stored setting uses
them.) -/
def pyInt? (s : String) : Option Int :=
  match s.toList with
  | '-' :: cs => (digitsToNat? cs).map (fun n => -(n : Int))
  | cs => (digitsToNat? cs).map (fun n => (n : Int))

/-- Splits a character sequence at its first `.`, if any. -/
def splitDot : List Char → List Char × Option (List Char)
  | [] => ([], none)
  | c :: rest =>
    if c = '.' then ([], some rest)
    else
      let r := splitDot rest
      (c :: r.1, r.2)

/-- Python `float(s)` on a decimal string, as `ℚ`; `none` models the
`ValueError` that `float` raises on a malformed string (exponent forms and
surrounding whitespace are not modelled; no stored setting uses them). -/
def pyFloat? (s : String) : Option ℚ :=
  let signed : Bool × List Char :=
    match s.toList with
    | '-' :: rest => (true, rest)
    | '+' :: rest => (false, rest)
    | cs => (false, cs)
  let withSign : ℚ → ℚ := fun q => if signed.1 then -q else q
  match splitDot signed.2 with
  | (ip, none) => (digitsToNat? ip).map (fun n => withSign (n : ℚ))
  | ([], some []) => none
  | (ip, some fp) =>
    let ipVal : Option Nat := if ip = [] then some 0 else digitsToNat? ip
    let fpVal : Option Nat := if fp = [] then some 0 else digitsToNat? fp
    match ipVal, fpVal with
    | some a, some b =>
      some (withSign ((a : ℚ) + (b : ℚ) / ((10 : ℚ) ^ fp.length)))
    | _, _ => none

/-- `int(threshold_setting.setting_value) if threshold_setting else 5`:
`none` models the `ValueError` of `int` on an unparsable stored value
(which aborts the request before the commit). -/
def lowStockThreshold (settings : List Settings) : Option Int :=
  match findSetting settings "inventory" "low_stock_threshold" with
  | none => some 5
  | some s => pyInt? s.setting_value

/-- The high-value threshold read of `process_sale`: the whole read is
wrapped in `try/except` with fallback `5000.0`, so a missing row or an
unparsable value both yield the default. -/
def highValueThreshold (settings : List Settings) : ℚ :=
  match findSetting settings "sales" "high_value_sale_threshold" with
  | none => 5000
  | some s => (pyFloat? s.setting_value).getD 5000

/-- `User.query.filter_by(role=role).all()`. -/
def usersWithRole (users : List User) (role : String) : List User :=
  users.filter (fun u => u.role == role)

/-- `Part.query.get(i)`: primary-key lookup in the parts table. -/
def findPart (parts : List Part) (i : Nat) : Option Part :=
  parts.find? (fun p => p.id == i)

/-- `create_notification`: builds a `Notification` row and commits it
immediately (each call is its own transaction). -/
def create_notification (db : DB) (user_id : Nat)
    (title message type category : String)
    (action_url action_text : Option String) : DB :=
  { db with notifications := db.notifications ++
      [{ user_id := user_id, title := title, message := message,
         type := type, category := category,
         action_url := action_url, action_text := action_text }] }

/-- `create_notification_for_role`: queries the users holding `role` and
calls `create_notification` for each in order. -/
def create_notification_for_role (db : DB) (role : String)
    (title message type category : String)
    (action_url action_text : Option String) : DB :=
  (usersWithRole db.users role).foldl
    (fun d u => create_notification d u.id title message type category action_url action_text)
    db

/-- Python f-string `.2f` rendering of a currency amount (rounding to the
nearest cent, half up; the binary-float tie behaviour of CPython is
approximated).  The number of cents is `⌊q·100 + 1/2⌋`, computed directly
on the numerator and denominator by integer floor division. -/
def fmtMoney (q : ℚ) : String :=
  let cents : Int := Int.fdiv (q.num * 200 + (q.den : Int)) (2 * (q.den : Int))
  let a := cents.natAbs
  (if cents < 0 then "-" else "") ++ toString (a / 100) ++ "." ++
    (if a % 100 < 10 then "0" else "") ++ toString (a % 100)

/-- The message of a critical stock alert:
`f'{part.name} is critically low on stock ({part.stock_quantity} remaining)'`. -/
def criticalMsg (p : Part) : String :=
  p.name ++ " is critically low on stock (" ++ toString p.stock_quantity ++ " remaining)"

/-- The stock-update loop of `process_sale`: for each cart item, stage the
`SaleDetail` (done separately in `mkDetails`), decrement the part's stock
clamped at zero, and collect into `low_stock_items` every part whose new
stock is below the threshold (the part object is recorded; we record its
primary key).  Returns the updated parts table and the collected ids. -/
def stageItems (thr : Int) :
    List Part → List Nat → List CartItem → List Part × List Nat
  | parts, lows, [] => (parts, lows)
  | parts, lows, it :: rest =>
    match findPart parts it.id with
    | none => stageItems thr parts lows rest
    | some p =>
      let ns0 := p.stock_quantity - it.quantity
      let ns := if ns0 < 0 then 0 else ns0
      stageItems thr
        (parts.map (fun q => if q.id == p.id then { q with stock_quantity := ns } else q))
        (if ns < thr ∧ 0 ≤ ns then lows ++ [p.id] else lows)
        rest

/-- The staged `SaleDetail` rows: one per cart line, in cart order,
regardless of whether the part id resolves. -/
def mkDetails (sid : Nat) (items : List CartItem) : List SaleDetail :=
  items.map (fun it =>
    { sale_id := sid, part_id := it.id, quantity := it.quantity, price_at_sale := it.price })

/-- The staged `Sale` row built at the top of `process_sale`. -/
def mkSale (sid : Nat) (user : User) (req : SaleRequest) (receipt : String) : Sale :=
  { id := sid, total_amount := req.total, payment_method := req.paymentMethod,
    staff_id := user.id, customer_id := req.customer_id,
    receipt_number := receipt, notes := req.notes }

/-- Whether MySQL accepts the commit of the staged writes: no injected
storage failure, no duplicate `(sale_id, part_id)` primary key among the
staged details, every staged `part_id`/`staff_id`/`customer_id` foreign key
resolves, and the unique `receipt_number` does not collide. -/
def commitOK (env : Env) (db : DB) (user : User) (req : SaleRequest)
    (details : List SaleDetail) : Bool :=
  !env.commitFails &&
  decide ((details.map SaleDetail.part_id).Nodup) &&
  details.all (fun d => db.parts.any (fun p => p.id == d.part_id)) &&
  db.users.any (fun u => u.id == user.id) &&
  (match req.customer_id with
   | none => true
   | some c => db.customers.contains c) &&
  db.sales.all (fun s => s.receipt_number != env.receipt)

/-- The database state after a successful commit of the staged writes. -/
def commitDB (db : DB) (sale : Sale) (details : List SaleDetail)
    (parts : List Part) : DB :=
  { db with
      parts := parts,
      sales := db.sales ++ [sale],
      sale_details := db.sale_details ++ details,
      next_sale_id := db.next_sale_id + 1 }

/-- The critical-stock loop after the commit: for each collected
`low_stock_items` entry whose (committed) stock is `≤ 2`, fan a warning out
to every manager.  This loop is NOT wrapped in any `try/except`: an
exception inside the fan-out (modelled by `FailStep.criticalStock`)
propagates, returning the state reached so far and the raised flag. -/
def criticalStockStep (env : Env) : DB → List Nat → DB × Bool
  | db, [] => (db, false)
  | db, pid :: rest =>
    match findPart db.parts pid with
    | none => criticalStockStep env db rest
    | some p =>
      if p.stock_quantity ≤ 2 then
        if env.failSteps.contains FailStep.criticalStock then (db, true)
        else criticalStockStep env
          (create_notification_for_role db "manager" "Critical Stock Alert"
            (criticalMsg p) "warning" "inventory" (some "/inventory") (some "View Inventory"))
          rest
      else criticalStockStep env db rest

/-- The `AuditLog` row written by `log_audit('create', 'sales', ...)`. -/
def auditEntry (user : User) (sale : Sale) (req : SaleRequest) : AuditLog :=
  { user_id := some user.id, action_type := "create", table_name := "sales",
    record_id := some sale.id,
    new_values := some
      { total_amount := req.total, payment_method := req.paymentMethod,
        customer_id := req.customer_id, items := req.items } }

/-- Post-commit block 2 of `process_sale`: the completion notification to
the staff member who processed the sale.  Not wrapped in any `try/except`:
the Boolean result is `true` when the injected failure raises here. -/
def completionStep (env : Env) (user : User) (sale : Sale) (total : ℚ)
    (db : DB) : DB × Bool :=
  if env.failSteps.contains FailStep.completion then (db, true)
  else
    let saleIdentifier :=
      if sale.receipt_number == "" then "Sale #" ++ toString sale.id
      else sale.receipt_number
    (create_notification db user.id "Sale Completed"
      (saleIdentifier ++ " completed for ₱" ++ fmtMoney total ++ ".")
      "success" "sales" (some "/sales") (some "View Sale"), false)

/-- Post-commit block 3 of `process_sale`: the high-value alert.  Only the
threshold read sits in a `try/except` (already folded into
`highValueThreshold`); the fan-out itself is unguarded, so an injected
failure raises only when the fan-out actually runs (`thr ≤ total`). -/
def highValueStep (env : Env) (user : User) (req : SaleRequest)
    (db : DB) : DB × Bool :=
  let thr := highValueThreshold db.settings
  if thr ≤ req.total ∧ env.failSteps.contains FailStep.highValueFanout then (db, true)
  else if thr ≤ req.total then
    let msg := "High value sale of ₱" ++ fmtMoney req.total ++
      " processed by " ++ user.name ++ "."
    (create_notification_for_role
      (create_notification_for_role db "manager" "High Value Sale" msg
        "warning" "sales" (some "/reports") (some "View Reports"))
      "admin" "High Value Sale" msg
      "warning" "sales" (some "/reports") (some "View Reports"), false)
  else (db, false)

/-- Post-commit block 4 of `process_sale`: the milestone alert.  The whole
block is wrapped in `try/except Exception: pass`, so a failure inside it is
swallowed and never observable outside (modelled as the whole block not
running). -/
def milestoneStep (env : Env) (db : DB) : DB :=
  if env.failSteps.contains FailStep.milestone then db
  else
    let cnt := db.sales.length
    if 0 < cnt ∧ cnt % 10 = 0 then
      let mmsg := toString cnt ++ " total sales have been completed."
      create_notification_for_role
        (create_notification_for_role db "manager" "Sales Milestone Reached"
          mmsg "info" "sales" (some "/reports") (some "View Reports"))
        "admin" "Sales Milestone Reached" mmsg
        "info" "sales" (some "/reports") (some "View Reports")
    else db

/-- Post-commit block 5 of `process_sale`: `log_audit(...)`, unguarded. -/
def auditStep (env : Env) (user : User) (sale : Sale) (req : SaleRequest)
    (db : DB) : DB × Bool :=
  if env.failSteps.contains FailStep.audit then (db, true)
  else ({ db with audit_logs := db.audit_logs ++ [auditEntry user sale req] }, false)

/-- Everything `process_sale` does after `db.session.commit()` succeeds:
critical-stock fan-out, completion notification, high-value alerts,
milestone alerts, audit record, success response.  Only the milestone block
is wrapped in `try/except` (and, separately, the high-value threshold read);
an exception anywhere else propagates to the outer handler, which rolls
back the (empty) session and returns the 500 response — the committed sale
and the notifications already committed stay. -/
def postCommit (env : Env) (user : User) (req : SaleRequest) (sale : Sale)
    (lows : List Nat) (db1 : DB) : Response × DB :=
  match criticalStockStep env db1 lows with
  | (db2, true) => (err500, db2)
  | (db2, false) =>
    match completionStep env user sale req.total db2 with
    | (db3, true) => (err500, db3)
    | (db3, false) =>
      match highValueStep env user req db3 with
      | (db5, true) => (err500, db5)
      | (db5, false) =>
        let db6 := milestoneStep env db5
        match auditStep env user sale req db6 with
        | (db7, true) => (err500, db7)
        | (db7, false) =>
          ({ success := true, status := 200, sale_id := some sale.id,
             receipt_number := some sale.receipt_number }, db7)

/-- The `process_sale` route body (`POST /api/sales`): stage the sale, its
line items and the stock updates, read the low-stock threshold (an
unparsable stored value raises before the commit), commit atomically, then
run the post-commit side effects.  Any exception reaches the outer
`except`, which rolls the session back and returns the 500 response. -/
def process_sale (env : Env) (user : User) (req : SaleRequest) (db : DB) :
    Response × DB :=
  match lowStockThreshold db.settings with
  | none => (err500, db)
  | some thr =>
    let sid := db.next_sale_id
    let sale := mkSale sid user req env.receipt
    let details := mkDetails sid req.items
    let staged := stageItems thr db.parts [] req.items
    if commitOK env db user req details then
      postCommit env user req sale staged.2 (commitDB db sale details staged.1)
    else (err500, db)

/-- `datetime.utcnow().strftime('%m')`-style two-digit zero-padded field. -/
def twoDigits (n : Nat) : List Char :=
  [Char.ofNat (48 + n / 10 % 10), Char.ofNat (48 + n % 10)]

/-- `strftime('%Y')`: four-digit year (faithful to CPython for the years
`utcnow` can produce, `1000‥9999`). -/
def fourDigits (n : Nat) : List Char :=
  [Char.ofNat (48 + n / 1000 % 10), Char.ofNat (48 + n / 100 % 10),
   Char.ofNat (48 + n / 10 % 10), Char.ofNat (48 + n % 10)]

/-- `generate_receipt_number`:
`f"RCP-{datetime.utcnow().strftime('%Y%m%d')}-{str(uuid.uuid4())[:8].upper()}"`.
`y`, `m`, `d` are the UTC date fields; `u` is the character sequence of
`str(uuid.uuid4())` (its first eight characters are lowercase hex digits). -/
def generate_receipt_number (y m d : Nat) (u : List Char) : String :=
  String.mk (['R', 'C', 'P', '-'] ++ fourDigits y ++ twoDigits m ++ twoDigits d
    ++ ['-'] ++ (u.take 8).map Char.toUpper)

/-- The characters `str(uuid.uuid4())` draws its hex digits from: the ten
decimal digits and the six lowercase hex letters. -/
def isHexLowerChar (c : Char) : Bool :=
  (['0', '1', '2', '3', '4']
    ++ ['5', '6', '7', '8', '9']
    ++ ['a', 'b', 'c']
    ++ ['d', 'e', 'f']).contains c

/-- Decidable check of the receipt format `RCP-\d\x7b8\x7d-[A-Z0-9]\x7b8\x7d`
on a character list. -/
def matchesReceiptFormatL (cs : List Char) : Bool :=
  cs.length == 21 &&
  cs.take 4 == ['R', 'C', 'P', '-'] &&
  ((cs.drop 4).take 8).all Char.isDigit &&
  (cs.drop 12).take 1 == ['-'] &&
  (cs.drop 13).all (fun c => c.isDigit || ('A' ≤ c && c ≤ 'Z'))

/-- The receipt format check on a string. -/
def matchesReceiptFormat (s : String) : Bool :=
  matchesReceiptFormatL s.toList

/-! ### Derived descriptions of the notification fan-outs -/

/-- The notification row a role fan-out creates for one user. -/
def mkRoleNotif (title message type category : String)
    (action_url action_text : Option String) (u : User) : Notification :=
  { user_id := u.id, title := title, message := message, type := type,
    category := category, action_url := action_url, action_text := action_text }

/-- The critical-stock warnings one part generates: one per manager. -/
def criticalPartFanout (users : List User) (p : Part) : List Notification :=
  (usersWithRole users "manager").map
    (mkRoleNotif "Critical Stock Alert" (criticalMsg p) "warning"
      "inventory" (some "/inventory") (some "View Inventory"))

/-- All notifications the critical-stock loop creates when no step raises:
for each collected low-stock part id whose stock is `≤ 2`, one warning per
manager, in order. -/
def criticalFanout (parts : List Part) (users : List User) (lows : List Nat) :
    List Notification :=
  lows.flatMap (fun pid =>
    match findPart parts pid with
    | none => []
    | some p =>
      if p.stock_quantity ≤ 2 then criticalPartFanout users p
      else [])

/-- The completion notification sent to the processing staff member. -/
def completionNotif (user : User) (sale : Sale) (total : ℚ) : Notification :=
  { user_id := user.id, title := "Sale Completed",
    message := (if sale.receipt_number == "" then "Sale #" ++ toString sale.id
                else sale.receipt_number) ++ " completed for ₱" ++ fmtMoney total ++ ".",
    type := "success", category := "sales",
    action_url := some "/sales", action_text := some "View Sale" }

/-- The message of a high-value alert. -/
def highValueMsg (total : ℚ) (staffName : String) : String :=
  "High value sale of ₱" ++ fmtMoney total ++ " processed by " ++ staffName ++ "."

/-- All notifications of the high-value trigger: one warning of category
`sales` per manager and per admin when `thr ≤ total`, none otherwise. -/
def highValueList (users : List User) (total thr : ℚ) (staffName : String) :
    List Notification :=
  if thr ≤ total then
    (usersWithRole users "manager").map
      (mkRoleNotif "High Value Sale" (highValueMsg total staffName) "warning"
        "sales" (some "/reports") (some "View Reports"))
    ++ (usersWithRole users "admin").map
      (mkRoleNotif "High Value Sale" (highValueMsg total staffName) "warning"
        "sales" (some "/reports") (some "View Reports"))
  else []

/-- All notifications of the milestone trigger at an all-time sales count. -/
def milestoneList (users : List User) (cnt : Nat) : List Notification :=
  if 0 < cnt ∧ cnt % 10 = 0 then
    (usersWithRole users "manager").map
      (mkRoleNotif "Sales Milestone Reached"
        (toString cnt ++ " total sales have been completed.") "info"
        "sales" (some "/reports") (some "View Reports"))
    ++ (usersWithRole users "admin").map
      (mkRoleNotif "Sales Milestone Reached"
        (toString cnt ++ " total sales have been completed.") "info"
        "sales" (some "/reports") (some "View Reports"))
  else []

/-! ### Fan-out lemmas -/

theorem foldl_create_notification (t m ty c : String) (au ax : Option String) :
    ∀ (us : List User) (db : DB),
      us.foldl (fun d u => create_notification d u.id t m ty c au ax) db
        = { db with notifications := db.notifications ++ us.map (mkRoleNotif t m ty c au ax) } := by
  intro us
  induction us with
  | nil => intro db; simp [create_notification]
  | cons u us ih =>
    intro db
    rw [List.foldl_cons, ih]
    simp [create_notification, mkRoleNotif]

theorem create_notification_for_role_eq (db : DB) (role t m ty c : String)
    (au ax : Option String) :
    create_notification_for_role db role t m ty c au ax
      = { db with notifications := db.notifications
            ++ (usersWithRole db.users role).map (mkRoleNotif t m ty c au ax) } := by
  simp [create_notification_for_role, foldl_create_notification]

theorem criticalStockStep_eq (env : Env)
    (h : env.failSteps.contains FailStep.criticalStock = false) :
    ∀ (lows : List Nat) (db : DB),
      criticalStockStep env db lows
        = ({ db with notifications := db.notifications
              ++ criticalFanout db.parts db.users lows }, false) := by
  intro lows
  induction lows with
  | nil => intro db; simp [criticalStockStep, criticalFanout]
  | cons pid rest ih =>
    intro db
    rw [criticalStockStep]
    cases hfp : findPart db.parts pid with
    | none =>
      dsimp only
      rw [ih]
      simp [criticalFanout, hfp]
    | some p =>
      dsimp only
      by_cases hs : p.stock_quantity ≤ 2
      · rw [if_pos hs, h]
        simp only [Bool.false_eq_true, if_false]
        rw [create_notification_for_role_eq, ih]
        simp [criticalFanout, criticalPartFanout, hfp, hs, mkRoleNotif]
      · rw [if_neg hs, ih]
        simp [criticalFanout, hfp, hs]

theorem criticalStockStep_raise (env : Env)
    (h : env.failSteps.contains FailStep.criticalStock = true)
    (db : DB) (pid : Nat) (rest : List Nat) (p : Part)
    (hfp : findPart db.parts pid = some p) (hs : p.stock_quantity ≤ 2) :
    criticalStockStep env db (pid :: rest) = (db, true) := by
  rw [criticalStockStep, hfp]
  dsimp only
  rw [if_pos hs, h]
  simp

/-- The critical-stock loop never touches any table but `notifications`,
where it only appends rows: whatever happens, the state it returns is the
input state with some list appended to `notifications`. -/
theorem criticalStockStep_shape (env : Env) :
    ∀ (lows : List Nat) (db : DB), ∃ L : List Notification,
      (criticalStockStep env db lows).1
        = { db with notifications := db.notifications ++ L } := by
  intro lows
  induction lows with
  | nil => intro db; exact ⟨[], by simp [criticalStockStep]⟩
  | cons pid rest ih =>
    intro db
    rw [criticalStockStep]
    cases hfp : findPart db.parts pid with
    | none => exact ih db
    | some p =>
      dsimp only
      by_cases hs : p.stock_quantity ≤ 2
      · rw [if_pos hs]
        by_cases hc : env.failSteps.contains FailStep.criticalStock = true
        · rw [if_pos hc]
          exact ⟨[], by simp⟩
        · rw [if_neg hc, create_notification_for_role_eq]
          obtain ⟨L, hL⟩ :=
            ih { db with notifications := db.notifications ++ criticalPartFanout db.users p }
          refine ⟨criticalPartFanout db.users p ++ L, ?_⟩
          rw [show (usersWithRole db.users "manager").map
                (mkRoleNotif "Critical Stock Alert" (criticalMsg p) "warning"
                  "inventory" (some "/inventory") (some "View Inventory"))
              = criticalPartFanout db.users p from rfl]
          rw [hL]
          simp [List.append_assoc]
      · rw [if_neg hs]
        exact ih db

theorem completionStep_eq (env : Env) (user : User) (sale : Sale) (total : ℚ)
    (db : DB) (h : env.failSteps.contains FailStep.completion = false) :
    completionStep env user sale total db
      = ({ db with notifications := db.notifications ++ [completionNotif user sale total] },
         false) := by
  rw [completionStep, h]
  simp [create_notification, completionNotif]

theorem highValueStep_eq (env : Env) (user : User) (req : SaleRequest)
    (db : DB) (h : env.failSteps.contains FailStep.highValueFanout = false) :
    highValueStep env user req db
      = ({ db with notifications := db.notifications
            ++ highValueList db.users req.total (highValueThreshold db.settings) user.name },
         false) := by
  have hm : FailStep.highValueFanout ∉ env.failSteps := by simpa using h
  rw [highValueStep]
  by_cases hhv : highValueThreshold db.settings ≤ req.total
  · rw [if_neg (by simp [hm]), if_pos hhv]
    simp [create_notification_for_role_eq, highValueList, highValueMsg, hhv,
      List.append_assoc]
  · rw [if_neg (by simp [hhv]), if_neg hhv]
    simp [highValueList, hhv]

theorem milestoneStep_eq (env : Env) (db : DB) :
    milestoneStep env db
      = { db with notifications := db.notifications
            ++ (if env.failSteps.contains FailStep.milestone then []
                else milestoneList db.users db.sales.length) } := by
  rw [milestoneStep]
  by_cases hm : env.failSteps.contains FailStep.milestone = true
  · have hmm : FailStep.milestone ∈ env.failSteps := by simpa using hm
    simp [hm, hmm]
  · simp only [hm, Bool.false_eq_true, if_false]
    by_cases hms : 0 < db.sales.length ∧ db.sales.length % 10 = 0
    · rw [if_pos hms]
      simp [create_notification_for_role_eq, milestoneList, hms, List.append_assoc]
    · rw [if_neg hms]
      simp [milestoneList, hms]

theorem auditStep_eq (env : Env) (user : User) (sale : Sale) (req : SaleRequest)
    (db : DB) (h : env.failSteps.contains FailStep.audit = false) :
    auditStep env user sale req db
      = ({ db with audit_logs := db.audit_logs ++ [auditEntry user sale req] }, false) := by
  rw [auditStep, h]
  simp

/-- The state `postCommit` reaches and the response it returns when none
of the steps outside the milestone `try/except` raises: every trigger list
is appended to `notifications`, the audit row to `audit_logs`, and the
success response is returned. -/
theorem postCommit_success (env : Env) (user : User) (req : SaleRequest)
    (sale : Sale) (lows : List Nat) (db1 : DB)
    (h1 : env.failSteps.contains FailStep.criticalStock = false)
    (h2 : env.failSteps.contains FailStep.completion = false)
    (h3 : env.failSteps.contains FailStep.highValueFanout = false)
    (h4 : env.failSteps.contains FailStep.audit = false) :
    postCommit env user req sale lows db1
      = ({ success := true, status := 200, sale_id := some sale.id,
           receipt_number := some sale.receipt_number },
         { db1 with
            notifications := db1.notifications
              ++ criticalFanout db1.parts db1.users lows
              ++ [completionNotif user sale req.total]
              ++ highValueList db1.users req.total (highValueThreshold db1.settings) user.name
              ++ (if env.failSteps.contains FailStep.milestone then []
                  else milestoneList db1.users db1.sales.length),
            audit_logs := db1.audit_logs ++ [auditEntry user sale req] }) := by
  rw [postCommit, criticalStockStep_eq env h1]
  dsimp only
  rw [completionStep_eq env user sale req.total _ h2]
  dsimp only
  rw [highValueStep_eq env user req _ h3]
  dsimp only
  rw [milestoneStep_eq]
  dsimp only
  rw [auditStep_eq env user sale req _ h4]

/-- `db'` extends `db` by appended `notifications` and `audit_logs` rows
only: every other table is untouched and no pre-existing row is modified
or deleted. -/
def ExtendsNA (db dbb : DB) : Prop :=
  ∃ (L : List Notification) (A : List AuditLog),
    dbb = { db with notifications := db.notifications ++ L,
                    audit_logs := db.audit_logs ++ A }

theorem ExtendsNA.refl (db : DB) : ExtendsNA db db :=
  ⟨[], [], by simp⟩

theorem ExtendsNA.trans {a b c : DB} (h1 : ExtendsNA a b) (h2 : ExtendsNA b c) :
    ExtendsNA a c := by
  obtain ⟨L1, A1, rfl⟩ := h1
  obtain ⟨L2, A2, h⟩ := h2
  exact ⟨L1 ++ L2, A1 ++ A2, by rw [h]; simp [List.append_assoc]⟩

theorem ExtendsNA.create_notification {a b : DB} (h : ExtendsNA a b)
    (uid : Nat) (t m ty c : String) (au ax : Option String) :
    ExtendsNA a (JrfMotoshop.create_notification b uid t m ty c au ax) :=
  h.trans ⟨[{ user_id := uid, title := t, message := m, type := ty, category := c,
              action_url := au, action_text := ax }], [],
    by simp [JrfMotoshop.create_notification]⟩

theorem ExtendsNA.for_role {a b : DB} (h : ExtendsNA a b)
    (role t m ty c : String) (au ax : Option String) :
    ExtendsNA a (create_notification_for_role b role t m ty c au ax) :=
  h.trans ⟨(usersWithRole b.users role).map (mkRoleNotif t m ty c au ax), [],
    by rw [create_notification_for_role_eq]; simp⟩

theorem ExtendsNA.addAudit {a b : DB} (h : ExtendsNA a b) (e : AuditLog) :
    ExtendsNA a { b with audit_logs := b.audit_logs ++ [e] } := by
  obtain ⟨L, A, rfl⟩ := h
  exact ⟨L, A ++ [e], by simp [List.append_assoc]⟩

theorem ExtendsNA.criticalStep {a b : DB} (h : ExtendsNA a b)
    (env : Env) (lows : List Nat) :
    ExtendsNA a (criticalStockStep env b lows).1 := by
  obtain ⟨L, hL⟩ := criticalStockStep_shape env lows b
  exact h.trans ⟨L, [], by rw [hL]; simp⟩

theorem ExtendsNA.completion {a b : DB} (h : ExtendsNA a b)
    (env : Env) (user : User) (sale : Sale) (total : ℚ) :
    ExtendsNA a (completionStep env user sale total b).1 := by
  rw [completionStep]
  by_cases hc : env.failSteps.contains FailStep.completion = true
  · rw [if_pos hc]; exact h
  · rw [if_neg hc]
    exact h.create_notification _ _ _ _ _ _ _

theorem ExtendsNA.highValue {a b : DB} (h : ExtendsNA a b)
    (env : Env) (user : User) (req : SaleRequest) :
    ExtendsNA a (highValueStep env user req b).1 := by
  rw [highValueStep]
  dsimp only
  by_cases hc : highValueThreshold b.settings ≤ req.total
      ∧ env.failSteps.contains FailStep.highValueFanout = true
  · rw [if_pos hc]; exact h
  · rw [if_neg hc]
    by_cases hhv : highValueThreshold b.settings ≤ req.total
    · rw [if_pos hhv]
      exact (h.for_role _ _ _ _ _ _ _).for_role _ _ _ _ _ _ _
    · rw [if_neg hhv]; exact h

theorem ExtendsNA.milestone {a b : DB} (h : ExtendsNA a b) (env : Env) :
    ExtendsNA a (milestoneStep env b) := by
  rw [milestoneStep_eq]
  refine h.trans ⟨if env.failSteps.contains FailStep.milestone then []
    else milestoneList b.users b.sales.length, [], by simp⟩

theorem ExtendsNA.audit {a b : DB} (h : ExtendsNA a b)
    (env : Env) (user : User) (sale : Sale) (req : SaleRequest) :
    ExtendsNA a (auditStep env user sale req b).1 := by
  rw [auditStep]
  by_cases hc : env.failSteps.contains FailStep.audit = true
  · rw [if_pos hc]; exact h
  · rw [if_neg hc]
    exact h.addAudit _

/-- Whatever happens after the commit — including an exception in any
post-commit step — the state `postCommit` leaves behind is the committed
state with some rows appended to `notifications` and to `audit_logs`; no
other table changes, nothing is modified or deleted. -/
theorem postCommit_shape (env : Env) (user : User) (req : SaleRequest)
    (sale : Sale) (lows : List Nat) (db1 : DB) :
    ExtendsNA db1 (postCommit env user req sale lows db1).2 := by
  rw [postCommit]
  cases hcs : criticalStockStep env db1 lows with
  | mk db2 r1 =>
    have h2 : ExtendsNA db1 db2 := by
      have := (ExtendsNA.refl db1).criticalStep env lows
      rwa [hcs] at this
    cases r1 with
    | true => exact h2
    | false =>
      dsimp only
      cases hco : completionStep env user sale req.total db2 with
      | mk db3 r2 =>
        have h3 : ExtendsNA db1 db3 := by
          have := h2.completion env user sale req.total
          rwa [hco] at this
        cases r2 with
        | true => exact h3
        | false =>
          dsimp only
          cases hhv : highValueStep env user req db3 with
          | mk db5 r3 =>
            have h5 : ExtendsNA db1 db5 := by
              have := h3.highValue env user req
              rwa [hhv] at this
            cases r3 with
            | true => exact h5
            | false =>
              dsimp only
              have h6 : ExtendsNA db1 (milestoneStep env db5) := h5.milestone env
              cases hau : auditStep env user sale req (milestoneStep env db5) with
              | mk db7 r4 =>
                have h7 : ExtendsNA db1 db7 := by
                  have := h6.audit env user sale req
                  rwa [hau] at this
                cases r4 with
                | true => exact h7
                | false => exact h7

/-! ### Branch lemmas for `process_sale` -/

theorem process_sale_none (env : Env) (user : User) (req : SaleRequest) (db : DB)
    (h : lowStockThreshold db.settings = none) :
    process_sale env user req db = (err500, db) := by
  rw [process_sale, h]

theorem process_sale_commit (env : Env) (user : User) (req : SaleRequest)
    (db : DB) (thr : Int)
    (hthr : lowStockThreshold db.settings = some thr)
    (hok : commitOK env db user req (mkDetails db.next_sale_id req.items) = true) :
    process_sale env user req db
      = postCommit env user req (mkSale db.next_sale_id user req env.receipt)
          (stageItems thr db.parts [] req.items).2
          (commitDB db (mkSale db.next_sale_id user req env.receipt)
            (mkDetails db.next_sale_id req.items)
            (stageItems thr db.parts [] req.items).1) := by
  rw [process_sale, hthr]
  dsimp only
  rw [if_pos hok]

theorem process_sale_nocommit (env : Env) (user : User) (req : SaleRequest)
    (db : DB) (thr : Int)
    (hthr : lowStockThreshold db.settings = some thr)
    (hok : commitOK env db user req (mkDetails db.next_sale_id req.items) = false) :
    process_sale env user req db = (err500, db) := by
  rw [process_sale, hthr]
  dsimp only
  rw [if_neg (by simp [hok])]

theorem process_sale_success_inv (env : Env) (user : User) (req : SaleRequest)
    (db : DB) (h : (process_sale env user req db).1.success = true) :
    ∃ thr, lowStockThreshold db.settings = some thr
      ∧ commitOK env db user req (mkDetails db.next_sale_id req.items) = true := by
  cases hthr : lowStockThreshold db.settings with
  | none =>
    rw [process_sale_none env user req db hthr] at h
    simp [err500] at h
  | some thr =>
    cases hok : commitOK env db user req (mkDetails db.next_sale_id req.items) with
    | false =>
      rw [process_sale_nocommit env user req db thr hthr hok] at h
      simp [err500] at h
    | true => exact ⟨thr, rfl, rfl⟩

/-! ### Lemmas about the stock-update loop -/

/-- The stock a part ends at after one cart line, clamped at zero. -/
def postStock (parts : List Part) (it : CartItem) : Int :=
  match findPart parts it.id with
  | none => 0
  | some p => max 0 (p.stock_quantity - it.quantity)

/-- Whether one cart line puts its (resolving) part below the low-stock
threshold after the update. -/
def lowAfter (thr : Int) (parts : List Part) (it : CartItem) : Bool :=
  (findPart parts it.id).isSome && decide (postStock parts it < thr)

theorem intClamp_eq_max (a : Int) : (if a < 0 then 0 else a) = max 0 a := by
  rcases lt_or_le a 0 with h | h
  · rw [if_pos h, eq_comm, max_eq_left h.le]
  · rw [if_neg (not_lt.mpr h), eq_comm, max_eq_right h]

theorem findPart_map_upd (parts : List Part) (u : Nat) (ns : Int) (i : Nat) :
    findPart (parts.map (fun q => if q.id == u then { q with stock_quantity := ns } else q)) i
      = (findPart parts i).map (fun q => if q.id == u then { q with stock_quantity := ns } else q) := by
  rw [findPart, findPart, List.find?_map]
  have hcomp : ((fun p : Part => p.id == i) ∘ fun q : Part =>
      if q.id == u then { q with stock_quantity := ns } else q)
      = (fun p : Part => p.id == i) := by
    funext q
    by_cases h : (q.id == u) = true <;> simp [Function.comp, h]
  rw [hcomp]

theorem findPart_map_upd_ne (parts : List Part) (u : Nat) (ns : Int) (i : Nat)
    (h : i ≠ u) :
    findPart (parts.map (fun q => if q.id == u then { q with stock_quantity := ns } else q)) i
      = findPart parts i := by
  rw [findPart_map_upd]
  cases hf : findPart parts i with
  | none => rfl
  | some q =>
    have hqi : q.id = i := by simpa using List.find?_some hf
    simp [hqi, h]

theorem findPart_map_upd_self (parts : List Part) (u : Nat) (ns : Int) (p : Part)
    (hf : findPart parts u = some p) :
    findPart (parts.map (fun q => if q.id == u then { q with stock_quantity := ns } else q)) u
      = some { p with stock_quantity := ns } := by
  rw [findPart_map_upd, hf]
  have hpid : p.id = u := by simpa using List.find?_some hf
  simp [hpid]

theorem stageItems_findPart_of_not_mem (thr : Int) :
    ∀ (items : List CartItem) (parts : List Part) (lows : List Nat) (i : Nat),
      i ∉ items.map CartItem.id →
      findPart (stageItems thr parts lows items).1 i = findPart parts i := by
  intro items
  induction items with
  | nil => intro parts lows i _; rfl
  | cons it rest ih =>
    intro parts lows i h
    have hi1 : i ≠ it.id := fun e => h (by simp [e])
    have hi2 : i ∉ rest.map CartItem.id := fun e => h (by simp [e])
    rw [stageItems]
    cases hfp : findPart parts it.id with
    | none => exact ih parts lows i hi2
    | some p =>
      dsimp only
      rw [ih _ _ i hi2]
      have hpid : p.id = it.id := by simpa using List.find?_some hfp
      exact findPart_map_upd_ne parts p.id _ i (hpid ▸ hi1)

/-- With no duplicate ids in the cart, each resolving cart line leaves its
part at stock `max 0 (previous − quantity)` in the final parts table. -/
theorem stageItems_findPart_of_mem (thr : Int) :
    ∀ (items : List CartItem) (parts : List Part) (lows : List Nat),
      (items.map CartItem.id).Nodup →
      ∀ it ∈ items, ∀ p, findPart parts it.id = some p →
        findPart (stageItems thr parts lows items).1 it.id
          = some { p with stock_quantity := max 0 (p.stock_quantity - it.quantity) } := by
  intro items
  induction items with
  | nil => intro parts lows _ it hit; exact absurd hit (List.not_mem_nil it)
  | cons jt rest ih =>
    intro parts lows hnd it hit p hfp
    have hjrest : jt.id ∉ rest.map CartItem.id := by
      simp only [List.map_cons, List.nodup_cons] at hnd
      exact hnd.1
    have hndrest : (rest.map CartItem.id).Nodup := by
      simp only [List.map_cons, List.nodup_cons] at hnd
      exact hnd.2
    rw [stageItems]
    rcases List.mem_cons.mp hit with rfl | hmem
    · rw [hfp]
      dsimp only
      have hpid : p.id = it.id := by simpa using List.find?_some hfp
      rw [stageItems_findPart_of_not_mem thr rest _ _ it.id hjrest]
      rw [findPart_map_upd, hfp]
      simp [intClamp_eq_max]
      omega
    · cases hfj : findPart parts jt.id with
      | none => exact ih parts lows hndrest it hmem p hfp
      | some q =>
        dsimp only
        have hqid : q.id = jt.id := by simpa using List.find?_some hfj
        have hne : it.id ≠ q.id := by
          rw [hqid]
          intro e
          exact hjrest (e ▸ List.mem_map_of_mem CartItem.id hmem)
        refine ih _ _ hndrest it hmem p ?_
        rw [findPart_map_upd_ne parts q.id _ it.id hne]
        exact hfp

/-- With no duplicate ids in the cart, the `low_stock_items` list collected
by the loop holds exactly the ids of the resolving cart lines whose
post-sale stock lies below the threshold, in cart order. -/
theorem stageItems_lows (thr : Int) :
    ∀ (items : List CartItem) (parts : List Part) (lows : List Nat),
      (items.map CartItem.id).Nodup →
      (stageItems thr parts lows items).2
        = lows ++ (items.filter (lowAfter thr parts)).map CartItem.id := by
  intro items
  induction items with
  | nil => intro parts lows _; simp [stageItems]
  | cons jt rest ih =>
    intro parts lows hnd
    have hjrest : jt.id ∉ rest.map CartItem.id := by
      simp only [List.map_cons, List.nodup_cons] at hnd
      exact hnd.1
    have hndrest : (rest.map CartItem.id).Nodup := by
      simp only [List.map_cons, List.nodup_cons] at hnd
      exact hnd.2
    rw [stageItems]
    cases hfj : findPart parts jt.id with
    | none =>
      rw [ih parts lows hndrest]
      have : lowAfter thr parts jt = false := by
        simp [lowAfter, hfj]
      simp [this]
    | some q =>
      dsimp only
      have hqid : q.id = jt.id := by simpa using List.find?_some hfj
      set ns : Int := if q.stock_quantity - jt.quantity < 0 then 0
        else q.stock_quantity - jt.quantity with hns
      have hnsmax : ns = max 0 (q.stock_quantity - jt.quantity) := by
        rw [hns]; exact intClamp_eq_max _
      have hns0 : 0 ≤ ns := by rw [hnsmax]; exact le_max_left _ _
      have hfilter : ∀ x ∈ rest, lowAfter thr
          (parts.map (fun r => if r.id == q.id then { r with stock_quantity := ns } else r)) x
          = lowAfter thr parts x := by
        intro x hx
        have hxne : x.id ≠ q.id := by
          rw [hqid]
          intro e
          exact hjrest (e ▸ List.mem_map_of_mem CartItem.id hx)
        rw [lowAfter, lowAfter, postStock, postStock, findPart_map_upd_ne _ _ _ _ hxne]
      have hlowj : lowAfter thr parts jt = decide (ns < thr) := by
        simp [lowAfter, hfj, postStock, hnsmax]
      by_cases hlt : ns < thr
      · rw [if_pos ⟨hlt, hns0⟩, ih _ _ hndrest, List.filter_congr hfilter]
        simp [hlowj, hlt, hqid, List.append_assoc]
      · rw [if_neg (fun hcon => hlt hcon.1), ih _ _ hndrest, List.filter_congr hfilter]
        simp [hlowj, hlt]

theorem mkDetails_map_part_id (sid : Nat) (items : List CartItem) :
    (mkDetails sid items).map SaleDetail.part_id = items.map CartItem.id := by
  simp [mkDetails, List.map_map]

/-! ### Claim theorems -/

/-- C2: if the atomic commit of a sale fails, `process_sale` leaves the
state unchanged — no `Sale` row, no `SaleDetail` rows, no stock mutation —
and the caller receives a 500-class failure response instead of a success
result. -/
theorem claim_C2_commit_failure_atomic (env : Env) (user : User)
    (req : SaleRequest) (db : DB) (hc : env.commitFails = true) :
    process_sale env user req db = (err500, db)
    ∧ err500.success = false ∧ err500.status = 500 := by
  refine ⟨?_, rfl, rfl⟩
  cases hthr : lowStockThreshold db.settings with
  | none => exact process_sale_none env user req db hthr
  | some thr =>
    refine process_sale_nocommit env user req db thr hthr ?_
    simp [commitOK, hc]

def c2Env : Env := { commitFails := true, failSteps := [], receipt := "RCP-20250101-AAAA0000" }

def c2User : User := { id := 1, name := "Cass", role := "staff" }

def c2Req : SaleRequest :=
  { total := 120, paymentMethod := "cash",
    items := [{ id := 1, quantity := 2, price := 60 }],
    customer_id := none, notes := "" }

def c2Db : DB :=
  { parts := [{ id := 1, name := "Brake Pad", price := 60, stock_quantity := 9 }],
    users := [c2User], customers := [], sales := [], sale_details := [],
    notifications := [], audit_logs := [], settings := [], next_sale_id := 1 }

/-- Witness for C2 at a concrete failing commit. -/
theorem claim_C2_commit_failure_atomic_witness :
    c2Env.commitFails = true
    ∧ process_sale c2Env c2User c2Req c2Db = (err500, c2Db) :=
  ⟨by decide, (claim_C2_commit_failure_atomic c2Env c2User c2Req c2Db (by decide)).1⟩

/-- C9: a cart holding two lines with the same `itemId` can never commit —
the staged `SaleDetail` rows would collide on the composite primary key
`(sale_id, part_id)` — so `process_sale` raises at commit, rolls back, and
returns the 500-class failure response with the state unchanged. -/
theorem claim_C9_duplicate_item_pk (env : Env) (user : User)
    (req : SaleRequest) (db : DB)
    (hdup : ¬ (req.items.map CartItem.id).Nodup) :
    process_sale env user req db = (err500, db)
    ∧ err500.success = false ∧ err500.status = 500 := by
  refine ⟨?_, rfl, rfl⟩
  cases hthr : lowStockThreshold db.settings with
  | none => exact process_sale_none env user req db hthr
  | some thr =>
    refine process_sale_nocommit env user req db thr hthr ?_
    have hdet : ¬ ((mkDetails db.next_sale_id req.items).map SaleDetail.part_id).Nodup := by
      rw [mkDetails_map_part_id]; exact hdup
    simp [commitOK, decide_eq_false hdet]

def c9Env : Env := { commitFails := false, failSteps := [], receipt := "RCP-20250101-AAAA0001" }

def c9User : User := { id := 1, name := "Cass", role := "staff" }

def c9Req : SaleRequest :=
  { total := 120, paymentMethod := "cash",
    items := [{ id := 1, quantity := 1, price := 60 }, { id := 1, quantity := 1, price := 60 }],
    customer_id := none, notes := "" }

def c9Db : DB :=
  { parts := [{ id := 1, name := "Brake Pad", price := 60, stock_quantity := 9 }],
    users := [c9User], customers := [], sales := [], sale_details := [],
    notifications := [], audit_logs := [], settings := [], next_sale_id := 1 }

/-- Witness for C9 at a concrete duplicate cart. -/
theorem claim_C9_duplicate_item_pk_witness :
    ¬ (c9Req.items.map CartItem.id).Nodup
    ∧ process_sale c9Env c9User c9Req c9Db = (err500, c9Db) :=
  ⟨by decide, (claim_C9_duplicate_item_pk c9Env c9User c9Req c9Db (by decide)).1⟩

/-- C1: for every valid cart (non-empty, positive quantities, distinct
item ids) and every run of `process_sale` that reports success, each cart
line leaves its part at stock `max 0 (previousStock − quantitySold)`; in
particular the stock is never negative. -/
theorem claim_C1_stock_clamped (env : Env) (user : User) (req : SaleRequest)
    (db : DB)
    (hne : req.items ≠ [])
    (hq : ∀ it ∈ req.items, 0 < it.quantity)
    (hnd : (req.items.map CartItem.id).Nodup)
    (hs : (process_sale env user req db).1.success = true) :
    ∀ it ∈ req.items, ∀ p, findPart db.parts it.id = some p →
      findPart (process_sale env user req db).2.parts it.id
        = some { p with stock_quantity := max 0 (p.stock_quantity - it.quantity) }
      ∧ 0 ≤ max 0 (p.stock_quantity - it.quantity) := by
  obtain ⟨thr, hthr, hok⟩ := process_sale_success_inv env user req db hs
  intro it hit p hfp
  rw [process_sale_commit env user req db thr hthr hok]
  obtain ⟨L, A, hshape⟩ := postCommit_shape env user req
    (mkSale db.next_sale_id user req env.receipt)
    (stageItems thr db.parts [] req.items).2
    (commitDB db (mkSale db.next_sale_id user req env.receipt)
      (mkDetails db.next_sale_id req.items)
      (stageItems thr db.parts [] req.items).1)
  rw [hshape]
  dsimp only [commitDB]
  exact ⟨stageItems_findPart_of_mem thr req.items db.parts [] hnd it hit p hfp,
    le_max_left _ _⟩

def c1Env : Env := { commitFails := false, failSteps := [], receipt := "RCP-20250101-AAAA0002" }

def c1User : User := { id := 1, name := "Cass", role := "staff" }

def c1Item : CartItem := { id := 1, quantity := 5, price := 10 }

def c1Req : SaleRequest :=
  { total := 50, paymentMethod := "cash", items := [c1Item],
    customer_id := none, notes := "" }

def c1Part : Part := { id := 1, name := "Brake Pad", price := 10, stock_quantity := 1 }

def c1Db : DB :=
  { parts := [c1Part], users := [c1User], customers := [], sales := [],
    sale_details := [], notifications := [], audit_logs := [], settings := [],
    next_sale_id := 1 }

/-- Witness for C1: overselling a part with stock 1 by quantity 5 floors
the stock at `max 0 (1 − 5) = 0`. -/
theorem claim_C1_stock_clamped_witness :
    findPart (process_sale c1Env c1User c1Req c1Db).2.parts 1
      = some { c1Part with stock_quantity := max 0 (c1Part.stock_quantity - c1Item.quantity) }
    ∧ 0 ≤ max 0 (c1Part.stock_quantity - c1Item.quantity) :=
  claim_C1_stock_clamped c1Env c1User c1Req c1Db (by decide)
    (by decide) (by decide) (by decide) c1Item (by decide) c1Part (by decide)

/-- C10: a successful `process_sale` leaves every part not referenced by a
cart line unchanged, appends exactly the new `Sale` row and the staged
`SaleDetail` rows, only appends to `notifications` and `audit_logs`, and
leaves `users`, `customers` and `settings` untouched — pre-existing rows
are never modified or deleted. -/
theorem claim_C10_frame (env : Env) (user : User) (req : SaleRequest)
    (db : DB)
    (hs : (process_sale env user req db).1.success = true) :
    (∀ i, i ∉ req.items.map CartItem.id →
      findPart (process_sale env user req db).2.parts i = findPart db.parts i)
    ∧ (process_sale env user req db).2.sales
        = db.sales ++ [mkSale db.next_sale_id user req env.receipt]
    ∧ (process_sale env user req db).2.sale_details
        = db.sale_details ++ mkDetails db.next_sale_id req.items
    ∧ db.notifications <+: (process_sale env user req db).2.notifications
    ∧ db.audit_logs <+: (process_sale env user req db).2.audit_logs
    ∧ (process_sale env user req db).2.users = db.users
    ∧ (process_sale env user req db).2.customers = db.customers
    ∧ (process_sale env user req db).2.settings = db.settings := by
  obtain ⟨thr, hthr, hok⟩ := process_sale_success_inv env user req db hs
  rw [process_sale_commit env user req db thr hthr hok]
  obtain ⟨L, A, hshape⟩ := postCommit_shape env user req
    (mkSale db.next_sale_id user req env.receipt)
    (stageItems thr db.parts [] req.items).2
    (commitDB db (mkSale db.next_sale_id user req env.receipt)
      (mkDetails db.next_sale_id req.items)
      (stageItems thr db.parts [] req.items).1)
  rw [hshape]
  dsimp only [commitDB]
  refine ⟨?_, rfl, rfl, ?_, ?_, rfl, rfl, rfl⟩
  · intro i hi
    exact stageItems_findPart_of_not_mem thr req.items db.parts [] i hi
  · exact List.prefix_append _ _
  · exact List.prefix_append _ _

def c10Env : Env := { commitFails := false, failSteps := [], receipt := "RCP-20250101-AAAA0003" }

def c10User : User := { id := 1, name := "Cass", role := "staff" }

def c10Req : SaleRequest :=
  { total := 20, paymentMethod := "cash",
    items := [{ id := 1, quantity := 2, price := 10 }],
    customer_id := none, notes := "" }

def c10Db : DB :=
  { parts := [{ id := 1, name := "Brake Pad", price := 10, stock_quantity := 9 },
              { id := 2, name := "Chain", price := 25, stock_quantity := 4 }],
    users := [c10User], customers := [], sales := [], sale_details := [],
    notifications := [], audit_logs := [], settings := [], next_sale_id := 1 }

/-- Witness for C10: the non-carted part (id 2) is untouched by a
successful sale of part 1. -/
theorem claim_C10_frame_witness :
    findPart (process_sale c10Env c10User c10Req c10Db).2.parts 2
      = findPart c10Db.parts 2
    ∧ (process_sale c10Env c10User c10Req c10Db).2.users = c10Db.users :=
  ⟨(claim_C10_frame c10Env c10User c10Req c10Db (by decide)).1 2 (by decide),
   (claim_C10_frame c10Env c10User c10Req c10Db (by decide)).2.2.2.2.2.1⟩

/-- C7: `process_sale` persists the caller-supplied total verbatim as the
sale's `total_amount`.  The hypotheses say nothing about any relation
between `req.total` and the cart lines' `quantity × price` sum — the sale
succeeds and stores `req.total` for every total, matching or not:
`process_sale` never recomputes or compares it. -/
theorem claim_C7_total_trusted (env : Env) (user : User) (req : SaleRequest)
    (db : DB) (thr : Int)
    (hf : env.failSteps = [])
    (hthr : lowStockThreshold db.settings = some thr)
    (hok : commitOK env db user req (mkDetails db.next_sale_id req.items) = true) :
    (process_sale env user req db).1.success = true
    ∧ (process_sale env user req db).2.sales
        = db.sales ++ [mkSale db.next_sale_id user req env.receipt]
    ∧ (mkSale db.next_sale_id user req env.receipt).total_amount = req.total := by
  rw [process_sale_commit env user req db thr hthr hok]
  rw [postCommit_success _ _ _ _ _ _ (by rw [hf]; rfl) (by rw [hf]; rfl)
    (by rw [hf]; rfl) (by rw [hf]; rfl)]
  exact ⟨rfl, rfl, rfl⟩

def c7Env : Env := { commitFails := false, failSteps := [], receipt := "RCP-20250101-AAAA0004" }

def c7User : User := { id := 1, name := "Cass", role := "staff" }

/-- A request whose declared total (999) does not match the single line's
sum (2 × 10 = 20). -/
def c7Req : SaleRequest :=
  { total := 999, paymentMethod := "cash",
    items := [{ id := 1, quantity := 2, price := 10 }],
    customer_id := none, notes := "" }

def c7Db : DB :=
  { parts := [{ id := 1, name := "Brake Pad", price := 10, stock_quantity := 9 }],
    users := [c7User], customers := [], sales := [], sale_details := [],
    notifications := [], audit_logs := [], settings := [], next_sale_id := 1 }

/-- Witness for C7: a mismatched total (999 vs line sum 20) is accepted
and persisted verbatim. -/
theorem claim_C7_total_trusted_witness :
    (process_sale c7Env c7User c7Req c7Db).1.success = true
    ∧ (process_sale c7Env c7User c7Req c7Db).2.sales
        = c7Db.sales ++ [mkSale c7Db.next_sale_id c7User c7Req c7Env.receipt]
    ∧ (mkSale c7Db.next_sale_id c7User c7Req c7Env.receipt).total_amount = 999 :=
  claim_C7_total_trusted c7Env c7User c7Req c7Db 5 (by decide) (by decide) (by decide)

theorem mem_criticalFanout (P : List Part) (U : List User) (lows : List Nat)
    (n : Notification) (hn : n ∈ criticalFanout P U lows) :
    n.title = "Critical Stock Alert" ∧ n.type = "warning" ∧ n.category = "inventory" := by
  rw [criticalFanout, List.mem_flatMap] at hn
  obtain ⟨pid, _, hmem⟩ := hn
  cases hfp : findPart P pid with
  | none => rw [hfp] at hmem; cases hmem
  | some p =>
    rw [hfp] at hmem
    dsimp only at hmem
    by_cases hs2 : p.stock_quantity ≤ 2
    · rw [if_pos hs2, criticalPartFanout, List.mem_map] at hmem
      obtain ⟨u, _, rfl⟩ := hmem
      exact ⟨rfl, rfl, rfl⟩
    · rw [if_neg hs2] at hmem; cases hmem

theorem mem_highValueList (U : List User) (total thr : ℚ) (staffName : String)
    (n : Notification) (hn : n ∈ highValueList U total thr staffName) :
    n.title = "High Value Sale" ∧ n.type = "warning" ∧ n.category = "sales" := by
  rw [highValueList] at hn
  by_cases h : thr ≤ total
  · rw [if_pos h] at hn
    rcases List.mem_append.mp hn with hm | hm <;>
      · rw [List.mem_map] at hm
        obtain ⟨u, _, rfl⟩ := hm
        exact ⟨rfl, rfl, rfl⟩
  · rw [if_neg h] at hn; cases hn

theorem mem_milestoneList (U : List User) (cnt : Nat)
    (n : Notification) (hn : n ∈ milestoneList U cnt) :
    n.title = "Sales Milestone Reached" ∧ n.type = "info" ∧ n.category = "sales" := by
  rw [milestoneList] at hn
  by_cases h : 0 < cnt ∧ cnt % 10 = 0
  · rw [if_pos h] at hn
    rcases List.mem_append.mp hn with hm | hm <;>
      · rw [List.mem_map] at hm
        obtain ⟨u, _, rfl⟩ := hm
        exact ⟨rfl, rfl, rfl⟩
  · rw [if_neg h] at hn; cases hn

/-- C6: after a successful sale with no injected side-effect failure, the
warning notifications of category `sales` created by the run are exactly
`highValueList`: when the caller-supplied total is `≥` the configured
high-value threshold, one per user with role `manager` followed by one per
user with role `admin`, each a warning of category `sales` whose message
names the staff member and the amount; when the total is below the
threshold, none.  When no threshold row is stored, the threshold is the
default 5000. -/
theorem claim_C6_high_value_trigger (env : Env) (user : User)
    (req : SaleRequest) (db : DB)
    (hf : env.failSteps = [])
    (hs : (process_sale env user req db).1.success = true) :
    (((process_sale env user req db).2.notifications.drop db.notifications.length).filter
        (fun n => n.type == "warning" && n.category == "sales"))
      = highValueList db.users req.total (highValueThreshold db.settings) user.name
    ∧ (findSetting db.settings "sales" "high_value_sale_threshold" = none →
        highValueThreshold db.settings = 5000) := by
  refine ⟨?_, fun h => by rw [highValueThreshold, h]⟩
  obtain ⟨thr, hthr, hok⟩ := process_sale_success_inv env user req db hs
  rw [process_sale_commit env user req db thr hthr hok]
  rw [postCommit_success _ _ _ _ _ _ (by rw [hf]; rfl) (by rw [hf]; rfl)
    (by rw [hf]; rfl) (by rw [hf]; rfl)]
  dsimp only [commitDB]
  have hmf : env.failSteps.contains FailStep.milestone = false := by rw [hf]; rfl
  rw [hmf]
  simp only [Bool.false_eq_true, if_false, List.append_assoc]
  rw [List.drop_left]
  rw [List.filter_append, List.filter_append, List.filter_append]
  have hCF : (criticalFanout (stageItems thr db.parts [] req.items).1 db.users
      (stageItems thr db.parts [] req.items).2).filter
      (fun n => n.type == "warning" && n.category == "sales") = [] := by
    rw [List.filter_eq_nil_iff]
    intro n hn
    obtain ⟨_, _, hcat⟩ := mem_criticalFanout _ _ _ n hn
    simp [hcat]
  have hCN : ([completionNotif user (mkSale db.next_sale_id user req env.receipt) req.total].filter
      (fun n => n.type == "warning" && n.category == "sales")) = [] := by
    simp [completionNotif, List.filter]
  have hHV : (highValueList db.users req.total (highValueThreshold db.settings) user.name).filter
      (fun n => n.type == "warning" && n.category == "sales")
      = highValueList db.users req.total (highValueThreshold db.settings) user.name := by
    rw [List.filter_eq_self]
    intro n hn
    obtain ⟨_, hty, hcat⟩ := mem_highValueList _ _ _ _ n hn
    simp [hty, hcat]
  have hMS : ∀ cnt, (milestoneList db.users cnt).filter
      (fun n => n.type == "warning" && n.category == "sales") = [] := by
    intro cnt
    rw [List.filter_eq_nil_iff]
    intro n hn
    obtain ⟨_, hty, _⟩ := mem_milestoneList _ _ n hn
    simp [hty]
  rw [hCF, hCN, hHV, hMS]
  simp

def c6Env : Env := { commitFails := false, failSteps := [], receipt := "RCP-20250101-AAAA0005" }

def c6Staff : User := { id := 1, name := "Cass", role := "staff" }

def c6Mgr : User := { id := 2, name := "Mira", role := "manager" }

def c6Adm : User := { id := 3, name := "Avery", role := "admin" }

/-- A sale at total 6000, above the default threshold 5000. -/
def c6Req : SaleRequest :=
  { total := 6000, paymentMethod := "cash",
    items := [{ id := 1, quantity := 1, price := 6000 }],
    customer_id := none, notes := "" }

def c6Db : DB :=
  { parts := [{ id := 1, name := "Engine Block", price := 6000, stock_quantity := 9 }],
    users := [c6Staff, c6Mgr, c6Adm], customers := [], sales := [],
    sale_details := [], notifications := [], audit_logs := [], settings := [],
    next_sale_id := 1 }

/-- Witness for C6 at a concrete high-value sale. -/
theorem claim_C6_high_value_trigger_witness :
    (((process_sale c6Env c6Staff c6Req c6Db).2.notifications.drop
        c6Db.notifications.length).filter
        (fun n => n.type == "warning" && n.category == "sales"))
      = highValueList c6Db.users c6Req.total (highValueThreshold c6Db.settings) c6Staff.name
    ∧ (findSetting c6Db.settings "sales" "high_value_sale_threshold" = none →
        highValueThreshold c6Db.settings = 5000) :=
  claim_C6_high_value_trigger c6Env c6Staff c6Req c6Db (by decide) (by decide)

theorem filter_flatMap {α β : Type} (l : List α) (p : α → Bool) (f : α → List β) :
    (l.filter p).flatMap f = l.flatMap (fun x => if p x then f x else []) := by
  induction l with
  | nil => rfl
  | cons a ls ih =>
    by_cases h : p a = true
    · rw [List.filter_cons_of_pos h, List.flatMap_cons, List.flatMap_cons, if_pos h, ih]
    · rw [List.filter_cons_of_neg (by simp [h]), List.flatMap_cons, if_neg (by simp [h]), ih]
      simp

theorem flatMap_congr {α β : Type} {l : List α} {f g : α → List β}
    (h : ∀ x ∈ l, f x = g x) : l.flatMap f = l.flatMap g := by
  induction l with
  | nil => rfl
  | cons a ls ih =>
    rw [List.flatMap_cons, List.flatMap_cons, h a (List.mem_cons_self a ls),
      ih fun x hx => h x (List.mem_cons_of_mem a hx)]

def c5xEnv : Env := { commitFails := false, failSteps := [], receipt := "RCP-20250101-AAAA0006" }

def c5xUser : User := { id := 1, name := "Cass", role := "staff" }

def c5xMgr : User := { id := 2, name := "Mira", role := "manager" }

def c5xReq : SaleRequest :=
  { total := 200, paymentMethod := "cash",
    items := [{ id := 1, quantity := 2, price := 100 }],
    customer_id := none, notes := "" }

/-- A database whose configured low-stock threshold is 2 and whose single
part sits at stock 4, so the sale of 2 leaves it at exactly 2. -/
def c5xDb : DB :=
  { parts := [{ id := 1, name := "Oil Filter", price := 100, stock_quantity := 4 }],
    users := [c5xUser, c5xMgr], customers := [], sales := [], sale_details := [],
    notifications := [], audit_logs := [],
    settings := [{ category := "inventory", setting_key := "low_stock_threshold",
                   setting_value := "2" }],
    next_sale_id := 1 }

/-- Counterexample to C5 as stated: with the low-stock threshold configured
to 2, a sale drops a part's stock to exactly 2 (`≤ 2`), a manager-role user
exists, the sale succeeds — and yet no critical-stock notification at all
is created, because the loop only collects parts whose new stock is
strictly below the configured threshold (`2 < 2` fails). -/
theorem claim_C5_counterexample :
    (process_sale c5xEnv c5xUser c5xReq c5xDb).1.success = true
    ∧ findPart (process_sale c5xEnv c5xUser c5xReq c5xDb).2.parts 1
        = some { id := 1, name := "Oil Filter", price := 100, stock_quantity := 2 }
    ∧ (usersWithRole c5xDb.users "manager").length = 1
    ∧ ((process_sale c5xEnv c5xUser c5xReq c5xDb).2.notifications.filter
        (fun n => n.title == "Critical Stock Alert")) = [] := by
  decide

/-- C5 (amended): after a successful sale with no injected side-effect
failure and a cart without duplicate ids, the critical-stock notifications
created are exactly one warning per manager — referencing the item's name
and remaining quantity — for each cart item whose post-sale stock is both
`≤ 2` AND strictly below the configured low-stock threshold (default 5);
any other item (including one whose stock stays above 2, or equals 2 while
the threshold is `≤ 2`) generates none. -/
theorem claim_C5_amended_critical_stock (env : Env) (user : User)
    (req : SaleRequest) (db : DB) (thr : Int)
    (hf : env.failSteps = [])
    (hthr : lowStockThreshold db.settings = some thr)
    (hnd : (req.items.map CartItem.id).Nodup)
    (hs : (process_sale env user req db).1.success = true) :
    (((process_sale env user req db).2.notifications.drop db.notifications.length).filter
        (fun n => n.title == "Critical Stock Alert"))
      = req.items.flatMap (fun it =>
          match findPart db.parts it.id with
          | none => []
          | some p =>
            if max 0 (p.stock_quantity - it.quantity) < thr
                ∧ max 0 (p.stock_quantity - it.quantity) ≤ 2 then
              criticalPartFanout db.users
                { p with stock_quantity := max 0 (p.stock_quantity - it.quantity) }
            else []) := by
  obtain ⟨thr2, hthr2, hok⟩ := process_sale_success_inv env user req db hs
  rw [hthr] at hthr2
  cases hthr2
  rw [process_sale_commit env user req db thr hthr hok]
  rw [postCommit_success _ _ _ _ _ _ (by rw [hf]; rfl) (by rw [hf]; rfl)
    (by rw [hf]; rfl) (by rw [hf]; rfl)]
  dsimp only [commitDB]
  have hmf : env.failSteps.contains FailStep.milestone = false := by rw [hf]; rfl
  rw [hmf]
  simp only [Bool.false_eq_true, if_false, List.append_assoc]
  rw [List.drop_left]
  rw [List.filter_append, List.filter_append, List.filter_append]
  have hCF : (criticalFanout (stageItems thr db.parts [] req.items).1 db.users
      (stageItems thr db.parts [] req.items).2).filter
      (fun n => n.title == "Critical Stock Alert")
      = criticalFanout (stageItems thr db.parts [] req.items).1 db.users
          (stageItems thr db.parts [] req.items).2 := by
    rw [List.filter_eq_self]
    intro n hn
    obtain ⟨hti, _, _⟩ := mem_criticalFanout _ _ _ n hn
    simp [hti]
  have hCN : ([completionNotif user (mkSale db.next_sale_id user req env.receipt) req.total].filter
      (fun n => n.title == "Critical Stock Alert")) = [] := by
    simp [completionNotif, List.filter]
  have hHV : (highValueList db.users req.total (highValueThreshold db.settings) user.name).filter
      (fun n => n.title == "Critical Stock Alert") = [] := by
    rw [List.filter_eq_nil_iff]
    intro n hn
    obtain ⟨hti, _, _⟩ := mem_highValueList _ _ _ _ n hn
    simp [hti]
  have hMS : ∀ cnt, (milestoneList db.users cnt).filter
      (fun n => n.title == "Critical Stock Alert") = [] := by
    intro cnt
    rw [List.filter_eq_nil_iff]
    intro n hn
    obtain ⟨hti, _, _⟩ := mem_milestoneList _ _ n hn
    simp [hti]
  rw [hCF, hCN, hHV, hMS]
  simp only [List.append_nil, List.nil_append]
  rw [stageItems_lows thr req.items db.parts [] hnd]
  rw [List.nil_append, criticalFanout, List.flatMap_map, filter_flatMap]
  refine flatMap_congr ?_
  intro it hit
  cases hfp : findPart db.parts it.id with
  | none =>
    have hla : lowAfter thr db.parts it = false := by simp [lowAfter, hfp]
    simp [hla]
  | some p =>
    dsimp only
    have hstaged := stageItems_findPart_of_mem thr req.items db.parts [] hnd it hit p hfp
    have hla : lowAfter thr db.parts it
        = decide (max 0 (p.stock_quantity - it.quantity) < thr) := by
      simp [lowAfter, hfp, postStock]
    rw [hla]
    by_cases hlt : max 0 (p.stock_quantity - it.quantity) < thr
    · rw [if_pos (by simp [hlt])]
      rw [hstaged]
      dsimp only
      by_cases h2 : max 0 (p.stock_quantity - it.quantity) ≤ 2
      · rw [if_pos h2, if_pos ⟨hlt, h2⟩]
      · rw [if_neg h2, if_neg (fun hcon => h2 hcon.2)]
    · rw [if_neg (by simp [hlt])]
      rw [if_neg (fun hcon => hlt hcon.1)]

def c5Env : Env := { commitFails := false, failSteps := [], receipt := "RCP-20250101-AAAA0007" }

def c5User : User := { id := 1, name := "Cass", role := "staff" }

def c5Mgr : User := { id := 2, name := "Mira", role := "manager" }

def c5Req : SaleRequest :=
  { total := 30, paymentMethod := "cash",
    items := [{ id := 1, quantity := 3, price := 10 }],
    customer_id := none, notes := "" }

def c5Db : DB :=
  { parts := [{ id := 1, name := "Oil Filter", price := 10, stock_quantity := 4 }],
    users := [c5User, c5Mgr], customers := [], sales := [], sale_details := [],
    notifications := [], audit_logs := [], settings := [], next_sale_id := 1 }

/-- Witness for the amended C5: stock 4 sold down to 1 (`< 5` default
threshold and `≤ 2`) yields exactly the per-manager fan-out. -/
theorem claim_C5_amended_critical_stock_witness :
    (((process_sale c5Env c5User c5Req c5Db).2.notifications.drop
        c5Db.notifications.length).filter
        (fun n => n.title == "Critical Stock Alert"))
      = c5Req.items.flatMap (fun it =>
          match findPart c5Db.parts it.id with
          | none => []
          | some p =>
            if max 0 (p.stock_quantity - it.quantity) < 5
                ∧ max 0 (p.stock_quantity - it.quantity) ≤ 2 then
              criticalPartFanout c5Db.users
                { p with stock_quantity := max 0 (p.stock_quantity - it.quantity) }
            else []) :=
  claim_C5_amended_critical_stock c5Env c5User c5Req c5Db 5 (by decide)
    (by decide) (by decide) (by decide)

def c4xEnv : Env :=
  { commitFails := false, failSteps := [FailStep.criticalStock],
    receipt := "RCP-20250101-AAAA0008" }

def c4xUser : User := { id := 1, name := "Cass", role := "staff" }

def c4xMgr : User := { id := 2, name := "Mira", role := "manager" }

def c4xReq : SaleRequest :=
  { total := 50, paymentMethod := "cash",
    items := [{ id := 1, quantity := 2, price := 25 }],
    customer_id := none, notes := "" }

def c4xDb : DB :=
  { parts := [{ id := 1, name := "Spark Plug", price := 25, stock_quantity := 3 }],
    users := [c4xUser, c4xMgr], customers := [], sales := [], sale_details := [],
    notifications := [], audit_logs := [], settings := [], next_sale_id := 1 }

/-- Counterexample to C4 as stated: the commit succeeds (the Sale row is
present afterwards), then the critical-stock trigger raises — and the
failure is NOT caught: the caller receives the 500-class failure response
instead of the success response, and none of the remaining triggers ran
(no notification at all was created). -/
theorem claim_C4_counterexample :
    (process_sale c4xEnv c4xUser c4xReq c4xDb).1.success = false
    ∧ (process_sale c4xEnv c4xUser c4xReq c4xDb).1.status = 500
    ∧ (process_sale c4xEnv c4xUser c4xReq c4xDb).2.sales.length = 1
    ∧ (process_sale c4xEnv c4xUser c4xReq c4xDb).2.notifications = [] := by
  decide

/-- C4 (amended): only the milestone block is individually guarded.  A
failure inside the milestone trigger is swallowed and the caller still
receives the success response; but a failure inside the critical-stock
trigger propagates to the outer handler: the committed sale is not rolled
back, yet the caller receives the 500-class failure response and none of
the remaining triggers (completion, high-value, milestone, audit) runs. -/
theorem claim_C4_amended_trigger_isolation :
    (∀ (env : Env) (user : User) (req : SaleRequest) (db : DB) (thr : Int),
      env.failSteps = [FailStep.milestone] →
      lowStockThreshold db.settings = some thr →
      commitOK env db user req (mkDetails db.next_sale_id req.items) = true →
      (process_sale env user req db).1.success = true)
    ∧ (∀ (env : Env) (user : User) (req : SaleRequest) (db : DB) (thr : Int)
        (it : CartItem) (p : Part),
      env.failSteps = [FailStep.criticalStock] →
      lowStockThreshold db.settings = some thr →
      commitOK env db user req (mkDetails db.next_sale_id req.items) = true →
      req.items = [it] →
      findPart db.parts it.id = some p →
      max 0 (p.stock_quantity - it.quantity) < thr →
      max 0 (p.stock_quantity - it.quantity) ≤ 2 →
      (process_sale env user req db).1 = err500
      ∧ (process_sale env user req db).2.sales
          = db.sales ++ [mkSale db.next_sale_id user req env.receipt]
      ∧ (process_sale env user req db).2.notifications = db.notifications) := by
  constructor
  · intro env user req db thr hfm hthr hok
    rw [process_sale_commit env user req db thr hthr hok]
    rw [postCommit_success _ _ _ _ _ _ (by rw [hfm]; rfl) (by rw [hfm]; rfl)
      (by rw [hfm]; rfl) (by rw [hfm]; rfl)]
  · intro env user req db thr it p hfc hthr hok hreq hfp hlt h2
    rw [process_sale_commit env user req db thr hthr hok]
    have hnd : (req.items.map CartItem.id).Nodup := by rw [hreq]; simp
    have hlows : (stageItems thr db.parts [] req.items).2 = [it.id] := by
      rw [stageItems_lows thr req.items db.parts [] hnd, hreq]
      have : lowAfter thr db.parts it = true := by
        simp [lowAfter, hfp, postStock, hlt]
      simp [this]
    have hstaged : findPart (stageItems thr db.parts [] req.items).1 it.id
        = some { p with stock_quantity := max 0 (p.stock_quantity - it.quantity) } :=
      stageItems_findPart_of_mem thr req.items db.parts [] hnd it
        (by rw [hreq]; exact List.mem_singleton.mpr rfl) p hfp
    rw [postCommit, hlows]
    rw [criticalStockStep_raise env (by rw [hfc]; rfl) _ it.id []
      { p with stock_quantity := max 0 (p.stock_quantity - it.quantity) }
      (by dsimp only [commitDB]; exact hstaged) h2]
    exact ⟨rfl, rfl, rfl⟩

def c4Env : Env :=
  { commitFails := false, failSteps := [FailStep.milestone],
    receipt := "RCP-20250101-AAAA0009" }

def c4bEnv : Env :=
  { commitFails := false, failSteps := [FailStep.criticalStock],
    receipt := "RCP-20250101-AAAA0010" }

def c4User : User := { id := 1, name := "Cass", role := "staff" }

def c4Item : CartItem := { id := 1, quantity := 2, price := 25 }

def c4Req : SaleRequest :=
  { total := 50, paymentMethod := "cash", items := [c4Item],
    customer_id := none, notes := "" }

def c4Part : Part := { id := 1, name := "Spark Plug", price := 25, stock_quantity := 3 }

def c4Db : DB :=
  { parts := [c4Part], users := [c4User], customers := [], sales := [],
    sale_details := [], notifications := [], audit_logs := [], settings := [],
    next_sale_id := 1 }

/-- Witness for the amended C4: a swallowed milestone failure still yields
success, and a critical-stock failure yields the 500 response with the
sale committed. -/
theorem claim_C4_amended_trigger_isolation_witness :
    (process_sale c4Env c4User c4Req c4Db).1.success = true
    ∧ (process_sale c4bEnv c4User c4Req c4Db).1 = err500
    ∧ (process_sale c4bEnv c4User c4Req c4Db).2.sales
        = c4Db.sales ++ [mkSale c4Db.next_sale_id c4User c4Req c4bEnv.receipt]
    ∧ (process_sale c4bEnv c4User c4Req c4Db).2.notifications = c4Db.notifications :=
  ⟨claim_C4_amended_trigger_isolation.1 c4Env c4User c4Req c4Db 5
      (by decide) (by decide) (by decide),
   claim_C4_amended_trigger_isolation.2 c4bEnv c4User c4Req c4Db 5 c4Item c4Part
      (by decide) (by decide) (by decide) (by decide) (by decide) (by decide) (by decide)⟩

def c3xEnv : Env := { commitFails := false, failSteps := [], receipt := "RCP-20250101-AAAA0011" }

def c3xUser : User := { id := 1, name := "Cass", role := "staff" }

def c3xReq : SaleRequest :=
  { total := 0, paymentMethod := "cash", items := [],
    customer_id := none, notes := "" }

def c3xDb : DB :=
  { parts := [{ id := 1, name := "Brake Pad", price := 10, stock_quantity := 9 }],
    users := [c3xUser], customers := [], sales := [], sale_details := [],
    notifications := [], audit_logs := [], settings := [], next_sale_id := 1 }

/-- Counterexample to C3 as stated: an empty cart is NOT rejected with a
validation error — `process_sale` succeeds and creates a Sale row (with no
line items). -/
theorem claim_C3_counterexample :
    (process_sale c3xEnv c3xUser c3xReq c3xDb).1.success = true
    ∧ (process_sale c3xEnv c3xUser c3xReq c3xDb).2.sales.length = 1
    ∧ (process_sale c3xEnv c3xUser c3xReq c3xDb).2.sale_details = [] := by
  decide

/-- C3 (amended): `process_sale` performs no cart validation at all.
(1) An empty cart is accepted: the sale succeeds and no line item is
created.  (2) A line with non-positive quantity is accepted and the sale
succeeds (nothing rejects it before mutation).  (3) An unknown `itemId`
does not produce a pre-mutation not-found error: the dangling line item is
staged and the failure only surfaces at commit time as the generic
500-class persistence response (a foreign-key violation), leaving the
state unchanged. -/
theorem claim_C3_amended_no_validation :
    (∀ (env : Env) (user : User) (req : SaleRequest) (db : DB) (thr : Int),
      env.commitFails = false → env.failSteps = [] →
      lowStockThreshold db.settings = some thr →
      db.users.any (fun u => u.id == user.id) = true →
      db.sales.all (fun s => s.receipt_number != env.receipt) = true →
      req.customer_id = none → req.items = [] →
      (process_sale env user req db).1.success = true
      ∧ (process_sale env user req db).2.sale_details = db.sale_details)
    ∧ (∀ (env : Env) (user : User) (req : SaleRequest) (db : DB) (thr : Int)
        (it : CartItem) (p : Part),
      env.commitFails = false → env.failSteps = [] →
      lowStockThreshold db.settings = some thr →
      db.users.any (fun u => u.id == user.id) = true →
      db.sales.all (fun s => s.receipt_number != env.receipt) = true →
      req.customer_id = none → req.items = [it] →
      it.quantity ≤ 0 →
      findPart db.parts it.id = some p →
      (process_sale env user req db).1.success = true)
    ∧ (∀ (env : Env) (user : User) (req : SaleRequest) (db : DB) (it : CartItem),
      req.items = [it] →
      findPart db.parts it.id = none →
      process_sale env user req db = (err500, db)) := by
  refine ⟨?_, ?_, ?_⟩
  · intro env user req db thr hcf hf hthr hstaff hrcpt hcust hreq
    have hok : commitOK env db user req (mkDetails db.next_sale_id req.items) = true := by
      simp [commitOK, hcf, hstaff, hrcpt, hcust, hreq, mkDetails]
    rw [process_sale_commit env user req db thr hthr hok]
    rw [postCommit_success _ _ _ _ _ _ (by rw [hf]; rfl) (by rw [hf]; rfl)
      (by rw [hf]; rfl) (by rw [hf]; rfl)]
    refine ⟨rfl, ?_⟩
    dsimp only [commitDB]
    simp [mkDetails, hreq]
  · intro env user req db thr it p hcf hf hthr hstaff hrcpt hcust hreq hqty hfp
    have hpid : p.id = it.id := by simpa using List.find?_some hfp
    have hany : db.parts.any (fun pp => pp.id == it.id) = true :=
      List.any_eq_true.mpr ⟨p, List.mem_of_find?_eq_some hfp, by simp [hpid]⟩
    have hok : commitOK env db user req (mkDetails db.next_sale_id req.items) = true := by
      simp [commitOK, hcf, hstaff, hrcpt, hcust, hreq, mkDetails, hany]
    rw [process_sale_commit env user req db thr hthr hok]
    rw [postCommit_success _ _ _ _ _ _ (by rw [hf]; rfl) (by rw [hf]; rfl)
      (by rw [hf]; rfl) (by rw [hf]; rfl)]
  · intro env user req db it hreq hfp
    cases hthr : lowStockThreshold db.settings with
    | none => exact process_sale_none env user req db hthr
    | some thr =>
      refine process_sale_nocommit env user req db thr hthr ?_
      have hany : db.parts.any (fun pp => pp.id == it.id) = false := by
        rw [List.any_eq_false]
        intro pp hpp
        have := List.find?_eq_none.mp hfp pp hpp
        simpa using this
      simp [commitOK, hreq, mkDetails, hany]

def c3Env : Env := { commitFails := false, failSteps := [], receipt := "RCP-20250101-AAAA0012" }

def c3bEnv : Env := { commitFails := false, failSteps := [], receipt := "RCP-20250101-AAAA0013" }

def c3User : User := { id := 1, name := "Cass", role := "staff" }

def c3EmptyReq : SaleRequest :=
  { total := 0, paymentMethod := "cash", items := [], customer_id := none, notes := "" }

def c3NegItem : CartItem := { id := 1, quantity := -3, price := 10 }

def c3NegReq : SaleRequest :=
  { total := -30, paymentMethod := "cash", items := [c3NegItem],
    customer_id := none, notes := "" }

def c3GhostItem : CartItem := { id := 77, quantity := 1, price := 10 }

def c3GhostReq : SaleRequest :=
  { total := 10, paymentMethod := "cash", items := [c3GhostItem],
    customer_id := none, notes := "" }

def c3Part : Part := { id := 1, name := "Brake Pad", price := 10, stock_quantity := 9 }

def c3Db : DB :=
  { parts := [c3Part], users := [c3User], customers := [], sales := [],
    sale_details := [], notifications := [], audit_logs := [], settings := [],
    next_sale_id := 1 }

/-- Witness for the amended C3 at concrete inputs: empty cart accepted,
negative quantity accepted, unknown item id failing only at commit. -/
theorem claim_C3_amended_no_validation_witness :
    ((process_sale c3Env c3User c3EmptyReq c3Db).1.success = true
      ∧ (process_sale c3Env c3User c3EmptyReq c3Db).2.sale_details = c3Db.sale_details)
    ∧ (process_sale c3bEnv c3User c3NegReq c3Db).1.success = true
    ∧ process_sale c3bEnv c3User c3GhostReq c3Db = (err500, c3Db) :=
  ⟨claim_C3_amended_no_validation.1 c3Env c3User c3EmptyReq c3Db 5
      (by decide) (by decide) (by decide) (by decide) (by decide) (by decide) (by decide),
   claim_C3_amended_no_validation.2.1 c3bEnv c3User c3NegReq c3Db 5 c3NegItem c3Part
      (by decide) (by decide) (by decide) (by decide) (by decide) (by decide) (by decide)
      (by decide) (by decide),
   claim_C3_amended_no_validation.2.2 c3bEnv c3User c3GhostReq c3Db c3GhostItem
      (by decide) (by decide)⟩

theorem digitChar_isDigit (n : Nat) : (Char.ofNat (48 + n % 10)).isDigit = true := by
  have hlt : n % 10 < 10 := Nat.mod_lt _ (by norm_num)
  have hall : ∀ r < 10, (Char.ofNat (48 + r)).isDigit = true := by decide
  exact hall _ hlt

theorem hexUpper_ok (c : Char) (hc : isHexLowerChar c = true) :
    ((Char.toUpper c).isDigit
      || (decide ('A' ≤ Char.toUpper c) && decide (Char.toUpper c ≤ 'Z'))) = true := by
  have hc2 : c = '0' ∨ c = '1' ∨ c = '2' ∨ c = '3' ∨ c = '4'
      ∨ c = '5' ∨ c = '6' ∨ c = '7' ∨ c = '8' ∨ c = '9'
      ∨ c = 'a' ∨ c = 'b' ∨ c = 'c' ∨ c = 'd' ∨ c = 'e' ∨ c = 'f' := by
    simpa [isHexLowerChar, or_assoc] using hc
  rcases hc2 with rfl | rfl | rfl | rfl | rfl | rfl | rfl | rfl | rfl | rfl
    | rfl | rfl | rfl | rfl | rfl | rfl <;> decide

/-- C8: every identifier the receipt generator produces — for any UTC date
`utcnow` can yield and any `uuid4` value, whose string form begins with 8
lowercase hex digits — matches `RCP-\d\x7b8\x7d-[A-Z0-9]\x7b8\x7d`. -/
theorem claim_C8_receipt_format (y m d : Nat) (u : List Char)
    (hy : y ≤ 9999)
    (hlen : 8 ≤ u.length)
    (hhex : ∀ c ∈ u.take 8, isHexLowerChar c = true) :
    matchesReceiptFormat (generate_receipt_number y m d u) = true := by
  have htail : ((u.take 8).map Char.toUpper).length = 8 := by
    rw [List.length_map, List.length_take]
    omega
  rw [matchesReceiptFormat, generate_receipt_number]
  have hlist : (String.mk (['R', 'C', 'P', '-'] ++ fourDigits y ++ twoDigits m
      ++ twoDigits d ++ ['-'] ++ (u.take 8).map Char.toUpper)).toList
      = ['R', 'C', 'P', '-'] ++ fourDigits y ++ twoDigits m ++ twoDigits d
        ++ ['-'] ++ (u.take 8).map Char.toUpper := rfl
  rw [hlist, matchesReceiptFormatL, fourDigits, twoDigits, twoDigits]
  simp only [List.cons_append, List.nil_append, List.length_cons, htail,
    List.take_succ_cons, List.take_zero, List.drop_succ_cons, List.drop_zero,
    List.all_cons, List.all_map, Bool.and_eq_true, List.all_eq_true]
  repeat' apply And.intro
  all_goals
    first
    | decide
    | exact digitChar_isDigit _
    | (intro c hc; exact hexUpper_ok c (hhex c hc))
    | (intro x hx; cases hx)

/-- Witness for C8 at a concrete date and uuid prefix. -/
theorem claim_C8_receipt_format_witness :
    matchesReceiptFormat
      (generate_receipt_number 2025 10 12 "d41d8cd9-8f00-b204-e980".toList) = true :=
  claim_C8_receipt_format 2025 10 12 "d41d8cd9-8f00-b204-e980".toList
    (by decide) (by decide) (by decide)

end JrfMotoshop
